import Mathlib

/-
Verification of the pcsc-rust safe PC/SC wrapper (src/lib.rs) against its
natural-language specification.

The native PC/SC layer (the `ffi` module) is an external collaborator: each
wrapped operation is modelled as a pure function taking the values the native
call would produce (status code, reported lengths, buffer contents after the
call) as explicit arguments.  Machine integers are modelled as Nat / Int;
`DWORD` is the 64-bit unsigned `c_ulong` of the pcsclite targets, `LONG` a
signed integer.  C strings (`CStr` values) are modelled by their content
bytes, a `List Nat` without the terminating NUL.
-/

/-- Decidable equality for `Except`, used to evaluate operation outcomes on
concrete inputs. -/
instance {ε α : Type} [DecidableEq ε] [DecidableEq α] :
    DecidableEq (Except ε α) := fun a b =>
  match a, b with
  | Except.error e1, Except.error e2 =>
    if h : e1 = e2 then isTrue (by rw [h]) else isFalse (by simp [h])
  | Except.error _, Except.ok _ => isFalse (by simp)
  | Except.ok _, Except.error _ => isFalse (by simp)
  | Except.ok a1, Except.ok a2 =>
    if h : a1 = a2 then isTrue (by rw [h]) else isFalse (by simp [h])

namespace Pcsc

/-- Modelled from the spec: the designated native success status code of the
absent `ffi` module (every fallible operation short-circuits on it). -/
def SCARD_S_SUCCESS : Int := 0

/-- Modelled from the spec: first code of the contiguous hard-failure range of
the absent `ffi` module. -/
def SCARD_F_INTERNAL_ERROR : Int := 0x80100001

/-- Modelled from the spec: last code of the contiguous hard-failure range of
the absent `ffi` module. -/
def SCARD_E_SERVER_TOO_BUSY : Int := 0x80100031

/-- Modelled from the spec: first code of the contiguous warning range of the
absent `ffi` module. -/
def SCARD_W_UNSUPPORTED_CARD : Int := 0x80100065

/-- Modelled from the spec: last code of the contiguous warning range of the
absent `ffi` module. -/
def SCARD_W_CACHE_ITEM_TOO_BIG : Int := 0x80100072

/-- Modelled from the spec: the native no-readers-available status code of the
absent `ffi` module, normalized by reader listing to an empty sequence. -/
def SCARD_E_NO_READERS_AVAILABLE : Int := 0x8010002E

/-- Modelled from the spec: the native infinite-timeout sentinel of the absent
`ffi` module. -/
def INFINITE : Nat := 0xFFFFFFFF

/-- Modelled from the spec: the three native protocol codes of the absent
`ffi` module, a mask of bits; T0 code. -/
def SCARD_PROTOCOL_T0 : Nat := 0x0001

/-- Modelled from the spec: native T1 protocol code of the absent `ffi`
module. -/
def SCARD_PROTOCOL_T1 : Nat := 0x0002

/-- Modelled from the spec: native RAW protocol code of the absent `ffi`
module. -/
def SCARD_PROTOCOL_RAW : Nat := 0x0004

/-- Modelled from the spec: ATR buffer capacity of the native reader-state
record in the absent `ffi` module (the native-defined maximum). -/
def ATR_BUFFER_SIZE : Nat := 33

/-- Possible library errors, from the `Error` enum of src/lib.rs.  The
constructors are in source order: a first contiguous block of hard failures
and a second contiguous block of warnings. -/
inductive Error
  | InternalError
  | Cancelled
  | InvalidHandle
  | InvalidParameter
  | InvalidTarget
  | NoMemory
  | WaitedTooLong
  | InsufficientBuffer
  | UnknownReader
  | Timeout
  | SharingViolation
  | NoSmartcard
  | UnknownCard
  | CantDispose
  | ProtoMismatch
  | NotReady
  | InvalidValue
  | SystemCancelled
  | CommError
  | UnknownError
  | InvalidAtr
  | NotTransacted
  | ReaderUnavailable
  | Shutdown
  | PciTooSmall
  | ReaderUnsupported
  | DuplicateReader
  | CardUnsupported
  | NoService
  | ServiceStopped
  | Unexpected
  | IccInstallation
  | IccCreateorder
  | UnsupportedFeature
  | DirNotFound
  | FileNotFound
  | NoDir
  | NoFile
  | NoAccess
  | WriteTooMany
  | BadSeek
  | InvalidChv
  | UnknownResMng
  | NoSuchCertificate
  | CertificateUnavailable
  | NoReadersAvailable
  | CommDataLost
  | NoKeyContainer
  | ServerTooBusy
  | UnsupportedCard
  | UnresponsiveCard
  | UnpoweredCard
  | ResetCard
  | RemovedCard
  | SecurityViolation
  | WrongChv
  | ChvBlocked
  | Eof
  | CancelledByUser
  | CardNotAuthenticated
  | CacheItemNotFound
  | CacheItemStale
  | CacheItemTooBig
deriving DecidableEq, Repr

/-- The `repr(u32)` discriminant of each `Error` variant: the native status
code it names, as an unsigned 32-bit value.  Values modelled from the spec
(two contiguous native ranges; the `ffi` constants are absent from src). -/
def Error.value : Error → Nat
  | .InternalError => 0x80100001
  | .Cancelled => 0x80100002
  | .InvalidHandle => 0x80100003
  | .InvalidParameter => 0x80100004
  | .InvalidTarget => 0x80100005
  | .NoMemory => 0x80100006
  | .WaitedTooLong => 0x80100007
  | .InsufficientBuffer => 0x80100008
  | .UnknownReader => 0x80100009
  | .Timeout => 0x8010000A
  | .SharingViolation => 0x8010000B
  | .NoSmartcard => 0x8010000C
  | .UnknownCard => 0x8010000D
  | .CantDispose => 0x8010000E
  | .ProtoMismatch => 0x8010000F
  | .NotReady => 0x80100010
  | .InvalidValue => 0x80100011
  | .SystemCancelled => 0x80100012
  | .CommError => 0x80100013
  | .UnknownError => 0x80100014
  | .InvalidAtr => 0x80100015
  | .NotTransacted => 0x80100016
  | .ReaderUnavailable => 0x80100017
  | .Shutdown => 0x80100018
  | .PciTooSmall => 0x80100019
  | .ReaderUnsupported => 0x8010001A
  | .DuplicateReader => 0x8010001B
  | .CardUnsupported => 0x8010001C
  | .NoService => 0x8010001D
  | .ServiceStopped => 0x8010001E
  | .Unexpected => 0x8010001F
  | .IccInstallation => 0x80100020
  | .IccCreateorder => 0x80100021
  | .UnsupportedFeature => 0x80100022
  | .DirNotFound => 0x80100023
  | .FileNotFound => 0x80100024
  | .NoDir => 0x80100025
  | .NoFile => 0x80100026
  | .NoAccess => 0x80100027
  | .WriteTooMany => 0x80100028
  | .BadSeek => 0x80100029
  | .InvalidChv => 0x8010002A
  | .UnknownResMng => 0x8010002B
  | .NoSuchCertificate => 0x8010002C
  | .CertificateUnavailable => 0x8010002D
  | .NoReadersAvailable => 0x8010002E
  | .CommDataLost => 0x8010002F
  | .NoKeyContainer => 0x80100030
  | .ServerTooBusy => 0x80100031
  | .UnsupportedCard => 0x80100065
  | .UnresponsiveCard => 0x80100066
  | .UnpoweredCard => 0x80100067
  | .ResetCard => 0x80100068
  | .RemovedCard => 0x80100069
  | .SecurityViolation => 0x8010006A
  | .WrongChv => 0x8010006B
  | .ChvBlocked => 0x8010006C
  | .Eof => 0x8010006D
  | .CancelledByUser => 0x8010006E
  | .CardNotAuthenticated => 0x8010006F
  | .CacheItemNotFound => 0x80100070
  | .CacheItemStale => 0x80100071
  | .CacheItemTooBig => 0x80100072

/-- All `Error` variants, in declaration order. -/
def Error.all : List Error :=
  [.InternalError, .Cancelled, .InvalidHandle, .InvalidParameter, .InvalidTarget,
   .NoMemory, .WaitedTooLong, .InsufficientBuffer, .UnknownReader, .Timeout,
   .SharingViolation, .NoSmartcard, .UnknownCard, .CantDispose, .ProtoMismatch,
   .NotReady, .InvalidValue, .SystemCancelled, .CommError, .UnknownError,
   .InvalidAtr, .NotTransacted, .ReaderUnavailable, .Shutdown, .PciTooSmall,
   .ReaderUnsupported, .DuplicateReader, .CardUnsupported, .NoService,
   .ServiceStopped, .Unexpected, .IccInstallation, .IccCreateorder,
   .UnsupportedFeature, .DirNotFound, .FileNotFound, .NoDir, .NoFile,
   .NoAccess, .WriteTooMany, .BadSeek, .InvalidChv, .UnknownResMng,
   .NoSuchCertificate, .CertificateUnavailable, .NoReadersAvailable,
   .CommDataLost, .NoKeyContainer, .ServerTooBusy, .UnsupportedCard,
   .UnresponsiveCard, .UnpoweredCard, .ResetCard, .RemovedCard,
   .SecurityViolation, .WrongChv, .ChvBlocked, .Eof, .CancelledByUser,
   .CardNotAuthenticated, .CacheItemNotFound, .CacheItemStale,
   .CacheItemTooBig]

/-- Embeds `Error::from_raw` (src/lib.rs:247-260).  Inside the two declared
ranges the source `transmute`s the code to the variant with that `repr(u32)`
discriminant, which we express as a lookup of the variant whose `value`
equals the code; outside both ranges it masks the code to `UnknownError`
(the source `debug_assert!` is compiled out of release builds and the
function then returns normally). -/
def Error.from_raw (raw : Int) : Error :=
  if (SCARD_F_INTERNAL_ERROR ≤ raw ∧ raw ≤ SCARD_E_SERVER_TOO_BUSY) ∨
      (SCARD_W_UNSUPPORTED_CARD ≤ raw ∧ raw ≤ SCARD_W_CACHE_ITEM_TOO_BIG) then
    (Error.all.find? (fun e => e.value == raw.toNat)).getD Error.UnknownError
  else
    Error.UnknownError

/-- How a reader connection is shared (`ShareMode`, src/lib.rs:116-120). -/
inductive ShareMode
  | Exclusive
  | Shared
  | Direct
deriving DecidableEq, Repr

/-- A smart card communication protocol (`Protocol`, src/lib.rs:125-129). -/
inductive Protocol
  | T0
  | T1
  | RAW
deriving DecidableEq, Repr

/-- Embeds `Protocol::from_raw` (src/lib.rs:132-141).  The source panics on
any word other than the three protocol codes; the panic is modelled as
`none`. -/
def Protocol.from_raw (raw : Nat) : Option Protocol :=
  if raw = SCARD_PROTOCOL_T0 then some Protocol.T0
  else if raw = SCARD_PROTOCOL_T1 then some Protocol.T1
  else if raw = SCARD_PROTOCOL_RAW then some Protocol.RAW
  else none

/-- Disposition method when disconnecting from a card reader (`Disposition`,
src/lib.rs:158-163). -/
inductive Disposition
  | LeaveCard
  | ResetCard
  | UnpowerCard
  | EjectCard
deriving DecidableEq, Repr

/-- Scope of a context (`Scope`, src/lib.rs:273-278). -/
inductive Scope
  | User
  | Terminal
  | System
  | Global
deriving DecidableEq, Repr

/-- The three static protocol-control-information descriptors returned by
`get_protocol_pci` (src/lib.rs:382-390). -/
inductive ScardIoRequest
  | t0Pci
  | t1Pci
  | rawPci
deriving DecidableEq, Repr

/-- Embeds `get_protocol_pci` (src/lib.rs:382-390): a pure lookup from the
active protocol to one of the three static descriptors. -/
def get_protocol_pci : Protocol → ScardIoRequest
  | Protocol.T0 => ScardIoRequest.t0Pci
  | Protocol.T1 => ScardIoRequest.t1Pci
  | Protocol.RAW => ScardIoRequest.rawPci

/-- Embeds `.iter().position(|&c| c == 0)` over a byte slice
(src/lib.rs:447): the index of the first zero byte, if any. -/
def findZero : List Nat → Option Nat
  | [] => none
  | c :: rest =>
    if c = 0 then some 0
    else (findZero rest).map (fun i => i + 1)

/-- An iterator over card reader names (`ReaderNames`, src/lib.rs:438-441):
a borrowed byte buffer plus a cursor. -/
structure ReaderNames where
  buf : List Nat
  pos : Nat
deriving DecidableEq, Repr

/-- Embeds `ReaderNames::next` (src/lib.rs:446-455).  The Rust method
mutates `self.pos`; here the updated iterator is returned alongside the
yielded item.  The yielded `CStr` is represented by its content bytes
(the slice `buf[old_pos..pos]` without its terminating NUL).  When a zero
byte is found at relative index `len`: `len = 0` (an empty name) or no zero
byte means the iteration ends with the cursor untouched; otherwise the
cursor advances past the name and its NUL. -/
def ReaderNames.next (s : ReaderNames) : Option (List Nat) × ReaderNames :=
  match findZero (s.buf.drop s.pos) with
  | none => (none, s)
  | some len =>
    if len = 0 then (none, s)
    else (some ((s.buf.drop s.pos).take len), { s with pos := s.pos + len + 1 })

/-- If `findZero` finds an index it is inside the list. -/
theorem findZero_lt_length {l : List Nat} {k : Nat} (h : findZero l = some k) :
    k < l.length := by
  induction l generalizing k with
  | nil => simp [findZero] at h
  | cons c rest ih =>
    simp only [List.length_cons]
    by_cases hc : c = 0
    · simp [findZero, hc] at h
      omega
    · simp [findZero, hc] at h
      obtain ⟨j, hj, rfl⟩ := h
      have := ih hj
      omega

/-- A successful `next` keeps the buffer, strictly advances the cursor and
stays inside the buffer. -/
theorem ReaderNames.next_some {s : ReaderNames} {name : List Nat}
    {s2 : ReaderNames} (h : s.next = (some name, s2)) :
    s2.buf = s.buf ∧ s.pos < s2.pos ∧ s2.pos ≤ s.buf.length := by
  unfold ReaderNames.next at h
  split at h
  · simp at h
  case h_2 len heq =>
    by_cases hlen : len = 0
    · simp [hlen] at h
    · simp [hlen] at h
      obtain ⟨-, rfl⟩ := h
      have hlt := findZero_lt_length heq
      simp only [List.length_drop] at hlt
      refine ⟨rfl, ?_, ?_⟩
      · show s.pos < s.pos + len + 1
        omega
      · show s.pos + len + 1 ≤ s.buf.length
        omega

/-- Iterating `ReaderNames` to exhaustion: the list of all names `next`
yields, in order. -/
def ReaderNames.toList (s : ReaderNames) : List (List Nat) :=
  match h : s.next with
  | (none, _) => []
  | (some name, s2) => name :: s2.toList
termination_by s.buf.length - s.pos
decreasing_by
  have h3 := ReaderNames.next_some h
  have h4 : s2.buf.length = s.buf.length := by rw [h3.1]
  omega

/-- Encoding of a reader-name list as the native layer produces it
(spec, Testable Properties): each name as a NUL-terminated byte string,
followed by a terminating empty name (a final NUL). -/
def encodeNames (names : List (List Nat)) : List Nat :=
  (names.map (fun n => n ++ [0])).flatten ++ [0]

/-- Library context to the PCSC service (`Context`, src/lib.rs:395-401).
The `PhantomData` thread-confinement marker has no runtime content and is
omitted. -/
structure Context where
  handle : Nat
deriving DecidableEq, Repr

/-- Outcome of an operation that consumes a resource to release it.
`result` is the Rust `Result<(), (Resource, Error)>`; `dropSuppressed` is
true exactly when the source executed `forget(self)`, so the automatic
scope-exit cleanup (`Drop`) will not run again for the consumed value. -/
structure ConsumeOutcome (α : Type) where
  result : Except (α × Error) Unit
  dropSuppressed : Bool
deriving DecidableEq

/-- Embeds `Context::release` (src/lib.rs:503-519): on a non-success native
code the very same context is handed back with the mapped error; on success
the drop is skipped (`forget`). -/
def Context.release (self : Context) (nativeRet : Int) : ConsumeOutcome Context :=
  if nativeRet ≠ SCARD_S_SUCCESS then
    { result := Except.error (self, Error.from_raw nativeRet), dropSuppressed := false }
  else
    { result := Except.ok (), dropSuppressed := true }

/-- Embeds `Context::list_readers` (src/lib.rs:570-598).  `buffer` is the
caller-supplied byte buffer as left by the native call, `nativeRet` the
native status code and `buflen` the length the native call reported through
the in/out length parameter.  The no-readers-available code is normalized
to a successful iterator over the one-byte buffer `b"\0"`. -/
def Context.list_readers (buffer : List Nat) (nativeRet : Int)
    (buflen : Nat) : Except Error ReaderNames :=
  if nativeRet = SCARD_E_NO_READERS_AVAILABLE then
    Except.ok { buf := [0], pos := 0 }
  else if nativeRet ≠ SCARD_S_SUCCESS then
    Except.error (Error.from_raw nativeRet)
  else
    Except.ok { buf := buffer.take buflen, pos := 0 }

/-- A connection to a smart card (`Card`, src/lib.rs:421-425).  The
`PhantomData` borrow of the context has no runtime content and is
omitted. -/
structure Card where
  handle : Nat
  active_protocol : Protocol
deriving DecidableEq, Repr

/-- Embeds `Context::connect` (src/lib.rs:608-635).  `nativeRet`, `handle`
and `raw_active_protocol` are the values produced by the native call.  The
`Protocol::from_raw` panic on an impossible protocol word is modelled as
`none`; every normal return is `some`. -/
def Context.connect (share_mode : ShareMode) (nativeRet : Int)
    (handle : Nat) (raw_active_protocol : Nat) :
    Option (Except Error Card) :=
  if nativeRet ≠ SCARD_S_SUCCESS then
    some (Except.error (Error.from_raw nativeRet))
  else
    match Protocol.from_raw raw_active_protocol with
    | none => none
    | some p => some (Except.ok { handle := handle, active_protocol := p })

/-- Embeds the timeout conversion of `Context::get_status_change`
(src/lib.rs:661-669).  A duration is its `as_secs` value and its
`subsec_nanos` value; `none` is the infinite wait.  The source saturates in
u64, casts to `DWORD` (the 64-bit `c_ulong`, an identity on u64 values) and
caps at the infinite sentinel. -/
def U64_MAX : Nat := 0xFFFFFFFFFFFFFFFF

/-- Saturating u64 multiplication (`u64::saturating_mul`). -/
def saturatingMulU64 (a b : Nat) : Nat := min (a * b) U64_MAX

/-- Saturating u64 addition (`u64::saturating_add`). -/
def saturatingAddU64 (a b : Nat) : Nat := min (a + b) U64_MAX

/-- The millisecond timeout word passed to the native wait call
(src/lib.rs:661-669). -/
def Context.get_status_change_timeout_ms (timeout : Option (Nat × Nat)) : Nat :=
  match timeout with
  | some (secs, nanos) =>
    min INFINITE (saturatingAddU64 (saturatingMulU64 secs 1000) (nanos / 1000000))
  | none => INFINITE

/-- Embeds `Card::disconnect` (src/lib.rs:827-845): on a non-success native
code the very same card is handed back with the mapped error; on success
the drop is skipped (`forget`).  The disposition is forwarded to the native
call only. -/
def Card.disconnect (self : Card) (disposition : Disposition)
    (nativeRet : Int) : ConsumeOutcome Card :=
  if nativeRet ≠ SCARD_S_SUCCESS then
    { result := Except.error (self, Error.from_raw nativeRet), dropSuppressed := false }
  else
    { result := Except.ok (), dropSuppressed := true }

/-- Embeds `Card::get_attribute` (src/lib.rs:894-911).  `buffer` is the
caller-supplied buffer as left by the native call and `attribute_len` the
length reported through the in/out length parameter; on success the source
returns the slice `&buffer[0..attribute_len]` (the native contract keeps
`attribute_len` within the buffer on success). -/
def Card.get_attribute (buffer : List Nat) (nativeRet : Int)
    (attribute_len : Nat) : Except Error (List Nat) :=
  if nativeRet ≠ SCARD_S_SUCCESS then
    Except.error (Error.from_raw nativeRet)
  else
    Except.ok (buffer.take attribute_len)

/-- Embeds `Card::transmit` (src/lib.rs:951-973).  The protocol-control
descriptor is selected by `get_protocol_pci` from the card's recorded
active protocol; `receive_buffer` is the receive buffer as left by the
native call and `receive_len` the length it reported; on success the
source returns the slice `&receive_buffer[0..receive_len]`. -/
def Card.transmit (self : Card) (receive_buffer : List Nat)
    (nativeRet : Int) (receive_len : Nat) :
    ScardIoRequest × Except Error (List Nat) :=
  (get_protocol_pci self.active_protocol,
    if nativeRet ≠ SCARD_S_SUCCESS then
      Except.error (Error.from_raw nativeRet)
    else
      Except.ok (receive_buffer.take receive_len))

/-- An exclusive transaction with a card (`Transaction`,
src/lib.rs:428-430). -/
structure Transaction where
  card : Card
deriving DecidableEq, Repr

/-- Embeds `Transaction::end` (src/lib.rs:1010-1028): on a non-zero native
code the very same transaction is handed back with the mapped error; on
success the drop is skipped (`forget`). -/
def Transaction.«end» (self : Transaction) (disposition : Disposition)
    (nativeRet : Int) : ConsumeOutcome Transaction :=
  if nativeRet ≠ 0 then
    { result := Except.error (self, Error.from_raw nativeRet), dropSuppressed := false }
  else
    { result := Except.ok (), dropSuppressed := true }

/-- The union of all declared reader-state flag bits (the twelve `State`
flags of src/lib.rs:84-97; `STATE_UNAWARE` is 0).  Flag values modelled
from the spec (native bitmask constants of the absent `ffi` module). -/
def stateKnownBits : Nat := 0x7FF

/-- Embeds `State::from_bits_truncate`: keeps only declared flag bits. -/
def State.from_bits_truncate (w : Nat) : Nat := w &&& stateKnownBits

/-- The `STATE_UNAWARE` flag value (empty state mask). -/
def STATE_UNAWARE : Nat := 0

/-- The native reader-state record wrapped by `ReaderState`
(src/lib.rs:374-377).  `szReader` is the owned NUL-terminated name,
modelled by its content bytes. -/
structure ReaderState where
  szReader : List Nat
  dwCurrentState : Nat
  dwEventState : Nat
  cbAtr : Nat
  rgbAtr : List Nat
deriving DecidableEq, Repr

/-- Embeds `ReaderState::new` (src/lib.rs:706-721): an owned copy of the
name, the caller-supplied current state, an event state of
`STATE_UNAWARE`, and an empty ATR buffer. -/
def ReaderState.new (name : List Nat) (current_state : Nat) : ReaderState :=
  { szReader := name
    dwCurrentState := current_state
    dwEventState := STATE_UNAWARE
    cbAtr := 0
    rgbAtr := List.replicate ATR_BUFFER_SIZE 0 }

/-- Embeds `ReaderState::name` (src/lib.rs:724-726). -/
def ReaderState.name (self : ReaderState) : List Nat := self.szReader

/-- Embeds `ReaderState::event_state` (src/lib.rs:729-731). -/
def ReaderState.event_state (self : ReaderState) : Nat :=
  State.from_bits_truncate self.dwEventState

/-- Embeds `ReaderState::event_count` (src/lib.rs:738-740). -/
def ReaderState.event_count (self : ReaderState) : Nat :=
  (self.dwEventState &&& 0xFFFF0000) >>> 16

/-- Embeds `ReaderState::sync_current_state` (src/lib.rs:743-748): copies
the whole event-state word, event counter included, into the current-state
word. -/
def ReaderState.sync_current_state (self : ReaderState) : ReaderState :=
  { self with dwCurrentState := self.dwEventState }

/-- Modelled from the spec: `Context::get_status_change` lets the native
layer overwrite each record's event-state word with the newly observed
state; this applies one native report to one record. -/
def ReaderState.applyNativeReport (self : ReaderState)
    (reportedEventState : Nat) : ReaderState :=
  { self with dwEventState := reportedEventState }

/-- Modelled from the spec: a native "no change" response reports back
exactly the state word the caller declared as current (nothing newly
observed, counter included). -/
def ReaderState.noChangeReport (self : ReaderState) : Nat :=
  self.dwCurrentState

/-- Claim C1: for every consuming release operation (`Context::release`,
`Card::disconnect`, `Transaction::end`), a non-success native code makes
the operation return the original resource value unchanged paired with the
mapped error (and the scope-exit cleanup stays pending), while a native
success makes it return unit with the automatic scope-exit cleanup
suppressed (`forget`), so that cleanup does not run again. -/
theorem consuming_release_ownership (ctx : Context) (card : Card)
    (tx : Transaction) (d1 d2 : Disposition) (ret : Int) :
    (ret ≠ SCARD_S_SUCCESS →
      ctx.release ret =
        { result := Except.error (ctx, Error.from_raw ret), dropSuppressed := false } ∧
      card.disconnect d1 ret =
        { result := Except.error (card, Error.from_raw ret), dropSuppressed := false } ∧
      tx.«end» d2 ret =
        { result := Except.error (tx, Error.from_raw ret), dropSuppressed := false }) ∧
    (ret = SCARD_S_SUCCESS →
      ctx.release ret = { result := Except.ok (), dropSuppressed := true } ∧
      card.disconnect d1 ret = { result := Except.ok (), dropSuppressed := true } ∧
      tx.«end» d2 ret = { result := Except.ok (), dropSuppressed := true }) := by
  constructor
  · intro h
    have h0 : ret ≠ 0 := h
    refine ⟨?_, ?_, ?_⟩ <;>
      simp [Context.release, Card.disconnect, Transaction.«end», SCARD_S_SUCCESS, h0]
  · intro h
    have h0 : ret = 0 := h
    refine ⟨?_, ?_, ?_⟩ <;>
      simp [Context.release, Card.disconnect, Transaction.«end», SCARD_S_SUCCESS, h0]

/-- Witness for claim C1 at concrete inputs: an invalid-handle failure hands
the resources back unchanged, a success consumes them and suppresses the
scope-exit cleanup. -/
theorem consuming_release_ownership_witness :
    (Context.release { handle := 7 } 0x80100003 =
      { result := Except.error ({ handle := 7 }, Error.InvalidHandle),
        dropSuppressed := false } ∧
     Transaction.«end» { card := { handle := 5, active_protocol := Protocol.T0 } }
        Disposition.LeaveCard 0 =
      { result := Except.ok (), dropSuppressed := true }) := by
  have h1 := (consuming_release_ownership { handle := 7 }
    { handle := 5, active_protocol := Protocol.T0 }
    { card := { handle := 5, active_protocol := Protocol.T0 } }
    Disposition.LeaveCard Disposition.LeaveCard 0x80100003).1 (by decide)
  have h2 := (consuming_release_ownership { handle := 7 }
    { handle := 5, active_protocol := Protocol.T0 }
    { card := { handle := 5, active_protocol := Protocol.T0 } }
    Disposition.LeaveCard Disposition.LeaveCard 0).2 rfl
  refine ⟨?_, h2.2.2⟩
  rw [h1.1]
  decide

/-- Claim C2: every raw signed code inside the declared hard-failure range
or the declared warning range maps under `Error::from_raw` to the named
error kind whose `repr(u32)` value equals that code (so neither range has a
gap), and every code outside both ranges maps to the catch-all
`UnknownError` and the function returns normally (it is total). -/
theorem error_from_raw_total (raw : Int) :
    (SCARD_F_INTERNAL_ERROR ≤ raw → raw ≤ SCARD_E_SERVER_TOO_BUSY →
      (Error.from_raw raw).value = raw.toNat) ∧
    (SCARD_W_UNSUPPORTED_CARD ≤ raw → raw ≤ SCARD_W_CACHE_ITEM_TOO_BIG →
      (Error.from_raw raw).value = raw.toNat) ∧
    (¬((SCARD_F_INTERNAL_ERROR ≤ raw ∧ raw ≤ SCARD_E_SERVER_TOO_BUSY) ∨
        (SCARD_W_UNSUPPORTED_CARD ≤ raw ∧ raw ≤ SCARD_W_CACHE_ITEM_TOO_BIG)) →
      Error.from_raw raw = Error.UnknownError) := by
  refine ⟨?_, ?_, ?_⟩
  · intro h1 h2
    have g1 : (0x80100001 : Int) ≤ raw := h1
    have g2 : raw ≤ (0x80100031 : Int) := h2
    interval_cases raw <;> decide
  · intro h1 h2
    have g1 : (0x80100065 : Int) ≤ raw := h1
    have g2 : raw ≤ (0x80100072 : Int) := h2
    interval_cases raw <;> decide
  · intro h
    unfold Error.from_raw
    rw [if_neg h]

/-- Witness for claim C2 at concrete inputs: a code of each range maps to
the kind with that value, and a code outside both ranges maps to
`UnknownError`. -/
theorem error_from_raw_total_witness :
    (Error.from_raw 0x80100008).value = (0x80100008 : Int).toNat ∧
    (Error.from_raw 0x80100069).value = (0x80100069 : Int).toNat ∧
    Error.from_raw 0x12345 = Error.UnknownError :=
  ⟨(error_from_raw_total 0x80100008).1 (by decide) (by decide),
   (error_from_raw_total 0x80100069).2.1 (by decide) (by decide),
   (error_from_raw_total 0x12345).2.2 (by decide)⟩

/-- A `next` that yields nothing leaves `toList` empty. -/
theorem ReaderNames.toList_none {s t : ReaderNames}
    (h : s.next = (none, t)) : s.toList = [] := by
  unfold ReaderNames.toList
  split
  · rfl
  case h_2 name s2 heq =>
    rw [h] at heq
    simp at heq

/-- A `next` that yields a name prepends it to the rest of the iteration. -/
theorem ReaderNames.toList_some {s : ReaderNames} {name : List Nat}
    {s2 : ReaderNames} (h : s.next = (some name, s2)) :
    s.toList = name :: s2.toList := by
  conv_lhs => rw [ReaderNames.toList]
  split
  case h_1 t heq =>
    rw [h] at heq
    simp at heq
  case h_2 name2 s3 heq =>
    rw [h] at heq
    simp at heq
    rw [heq.1, heq.2]

/-- Claim C3: when the native list-readers call reports the
no-readers-available code, `Context::list_readers` returns a successful
empty reader-name sequence (it yields zero names); every other non-success
code is returned as the mapped error. -/
theorem list_readers_no_readers_normalized (buffer : List Nat) (buflen : Nat)
    (ret : Int) :
    (Context.list_readers buffer SCARD_E_NO_READERS_AVAILABLE buflen =
       Except.ok { buf := [0], pos := 0 } ∧
     ReaderNames.toList { buf := [0], pos := 0 } = []) ∧
    (ret ≠ SCARD_E_NO_READERS_AVAILABLE → ret ≠ SCARD_S_SUCCESS →
      Context.list_readers buffer ret buflen =
        Except.error (Error.from_raw ret)) := by
  refine ⟨⟨by simp [Context.list_readers], ?_⟩, ?_⟩
  · exact ReaderNames.toList_none (t := { buf := [0], pos := 0 }) (by decide)
  · intro h1 h2
    simp [Context.list_readers, h1, h2]

/-- Witness for claim C3 at concrete inputs: the no-readers code yields a
successful empty sequence, a sharing-violation code yields the mapped
error. -/
theorem list_readers_no_readers_normalized_witness :
    (Context.list_readers [65, 0, 0] SCARD_E_NO_READERS_AVAILABLE 3 =
       Except.ok { buf := [0], pos := 0 } ∧
     ReaderNames.toList { buf := [0], pos := 0 } = []) ∧
    Context.list_readers [65, 0, 0] 0x8010000B 3 =
      Except.error Error.SharingViolation := by
  have h1 := (list_readers_no_readers_normalized [65, 0, 0] 3 0x8010000B).1
  have h2 := (list_readers_no_readers_normalized [65, 0, 0] 3 0x8010000B).2
    (by decide) (by decide)
  refine ⟨h1, ?_⟩
  rw [h2]
  decide

/-- In a buffer that starts with a zero-free block followed by a zero byte,
the first zero byte sits right after the block. -/
theorem findZero_append {n t : List Nat} (hz : ∀ x ∈ n, x ≠ 0) :
    findZero (n ++ 0 :: t) = some n.length := by
  induction n with
  | nil => simp [findZero]
  | cons c rest ih =>
    have hc : c ≠ 0 := hz c (by simp)
    have ih2 := ih (fun x hx => hz x (by simp [hx]))
    simp [findZero, hc, ih2]

/-- One `next` step over a buffer whose remainder starts with a non-empty,
zero-free name followed by its NUL terminator: the name is yielded and the
cursor moves past it. -/
theorem ReaderNames.next_name {buf : List Nat} {pos : Nat} {n t : List Nat}
    (hd : buf.drop pos = n ++ 0 :: t) (hne : n ≠ [])
    (hz : ∀ x ∈ n, x ≠ 0) :
    ReaderNames.next { buf := buf, pos := pos } =
      (some n, { buf := buf, pos := pos + n.length + 1 }) := by
  have h1 : findZero (buf.drop pos) = some n.length := by
    rw [hd]
    exact findZero_append hz
  have h2 : n.length ≠ 0 := fun hlen => hne (List.length_eq_zero.mp hlen)
  have h3 : (buf.drop pos).take n.length = n := by
    rw [hd]
    have := List.take_left n (0 :: t)
    exact this
  simp [ReaderNames.next, h1, h2, h3]

/-- One `next` step over a buffer whose remainder starts with the
terminating empty name: nothing is yielded and the cursor stays. -/
theorem ReaderNames.next_terminator {buf : List Nat} {pos : Nat}
    {t : List Nat} (hd : buf.drop pos = 0 :: t) :
    ReaderNames.next { buf := buf, pos := pos } =
      (none, { buf := buf, pos := pos }) := by
  have h1 : findZero (buf.drop pos) = some 0 := by
    rw [hd]
    simp [findZero]
  simp [ReaderNames.next, h1]

/-- Decoding from any cursor whose remainder is an encoded name list
recovers exactly that list. -/
theorem ReaderNames.toList_encode (names : List (List Nat))
    (hg : ∀ n ∈ names, n ≠ [] ∧ ∀ x ∈ n, x ≠ 0) :
    ∀ buf pos, buf.drop pos = encodeNames names →
      ReaderNames.toList { buf := buf, pos := pos } = names := by
  induction names with
  | nil =>
    intro buf pos hd
    simp [encodeNames] at hd
    exact ReaderNames.toList_none (ReaderNames.next_terminator hd)
  | cons n rest ih =>
    intro buf pos hd
    have hn := hg n (by simp)
    have hd2 : buf.drop pos = n ++ 0 :: ((rest.map (fun m => m ++ [0])).flatten ++ [0]) := by
      rw [hd]
      simp [encodeNames]
    have hstep := ReaderNames.next_name hd2 hn.1 hn.2
    rw [ReaderNames.toList_some hstep]
    have hd3 : buf.drop (pos + n.length + 1) = encodeNames rest := by
      have : buf.drop (pos + n.length + 1) = (buf.drop pos).drop (n.length + 1) := by
        rw [List.drop_drop]
        ring_nf
      rw [this, hd2]
      have hsplit : n ++ 0 :: ((rest.map (fun m => m ++ [0])).flatten ++ [0]) =
          (n ++ [0]) ++ ((rest.map (fun m => m ++ [0])).flatten ++ [0]) := by
        simp
      rw [hsplit]
      have hlen : n.length + 1 = (n ++ [0]).length := by simp
      rw [hlen, List.drop_left]
      simp [encodeNames]
    rw [ih (fun m hm => hg m (by simp [hm])) buf (pos + n.length + 1) hd3]

/-- Claim C4: encoding N non-empty (zero-free, as C-string contents) names
as consecutive NUL-terminated byte strings followed by a terminating empty
name and iterating a `ReaderNames` over that buffer yields exactly the
original names in order; iterating over the single-NUL buffer yields zero
names. -/
theorem readerNames_roundtrip (names : List (List Nat))
    (hg : ∀ n ∈ names, n ≠ [] ∧ ∀ x ∈ n, x ≠ 0) :
    ReaderNames.toList { buf := encodeNames names, pos := 0 } = names ∧
    ReaderNames.toList { buf := [0], pos := 0 } = [] := by
  constructor
  · exact ReaderNames.toList_encode names hg (encodeNames names) 0 (by simp)
  · exact ReaderNames.toList_encode [] (by simp) [0] 0 (by simp [encodeNames])

/-- Witness for claim C4 at a concrete input: two names round-trip through
the encoded buffer. -/
theorem readerNames_roundtrip_witness :
    ReaderNames.toList { buf := encodeNames [[65, 66], [67]], pos := 0 } =
      [[65, 66], [67]] ∧
    ReaderNames.toList { buf := [0], pos := 0 } = [] :=
  readerNames_roundtrip [[65, 66], [67]] (by decide)

/-- Claim C10: for every buffer and cursor, `ReaderNames::next` never
yields an empty name, and the iterator is fused: a `next` that returns no
name leaves the cursor untouched, so every subsequent `next` also returns
no name. -/
theorem readerNames_nonempty_fused (s : ReaderNames) :
    (∀ name s2, s.next = (some name, s2) → name ≠ []) ∧
    (s.next.1 = none → s.next.2 = s ∧ s.next.2.next.1 = none) := by
  constructor
  · intro name s2 h
    unfold ReaderNames.next at h
    split at h
    · simp at h
    case h_2 len heq =>
      by_cases hlen : len = 0
      · simp [hlen] at h
      · simp [hlen] at h
        have hlt := findZero_lt_length heq
        intro hnil
        rw [← h.1] at hnil
        rw [List.take_eq_nil_iff] at hnil
        rcases hnil with h1 | h1
        · exact hlen h1
        · rw [h1] at hlt
          simp at hlt
  · intro h
    have hfix : s.next.2 = s := by
      unfold ReaderNames.next at h ⊢
      split at h
      · rfl
      case h_2 len heq =>
        by_cases hlen : len = 0
        · simp [hlen]
        · simp [hlen] at h
    exact ⟨hfix, by rw [hfix]; exact h⟩

/-- Witness for claim C10 at a concrete input: an exhausted iterator stays
exhausted and never yielded an empty name. -/
theorem readerNames_nonempty_fused_witness :
    ReaderNames.next { buf := [65, 0, 0], pos := 2 } =
      (none, { buf := [65, 0, 0], pos := 2 }) ∧
    (ReaderNames.next { buf := [65, 0, 0], pos := 2 }).2.next.1 = none := by
  have h := (readerNames_nonempty_fused { buf := [65, 0, 0], pos := 2 }).2
    (by decide)
  refine ⟨?_, h.2⟩
  have h2 : (ReaderNames.next { buf := [65, 0, 0], pos := 2 }).1 = none := by decide
  rw [Prod.ext_iff]
  exact ⟨h2, h.1⟩

/-- Claim C5: on success with a sufficiently large caller-supplied buffer,
`Card::get_attribute`, `Card::transmit` and `Context::list_readers` return
a prefix sub-slice of that exact buffer whose length equals the length the
native layer reported through the in/out length parameter. -/
theorem success_returns_buffer_prefix (buffer recv : List Nat)
    (card : Card) (alen rlen blen : Nat) :
    (alen ≤ buffer.length →
      Card.get_attribute buffer 0 alen = Except.ok (buffer.take alen) ∧
      (buffer.take alen).length = alen ∧
      buffer.take alen ++ buffer.drop alen = buffer) ∧
    (rlen ≤ recv.length →
      (card.transmit recv 0 rlen).2 = Except.ok (recv.take rlen) ∧
      (recv.take rlen).length = rlen ∧
      recv.take rlen ++ recv.drop rlen = recv) ∧
    (blen ≤ buffer.length →
      Context.list_readers buffer 0 blen =
        Except.ok { buf := buffer.take blen, pos := 0 } ∧
      (buffer.take blen).length = blen ∧
      buffer.take blen ++ buffer.drop blen = buffer) := by
  refine ⟨?_, ?_, ?_⟩
  · intro h
    refine ⟨by simp [Card.get_attribute, SCARD_S_SUCCESS], ?_, ?_⟩
    · simp [List.length_take]
      omega
    · exact List.take_append_drop alen buffer
  · intro h
    refine ⟨by simp [Card.transmit, SCARD_S_SUCCESS], ?_, ?_⟩
    · simp [List.length_take]
      omega
    · exact List.take_append_drop rlen recv
  · intro h
    refine ⟨?_, ?_, ?_⟩
    · simp [Context.list_readers, SCARD_S_SUCCESS, SCARD_E_NO_READERS_AVAILABLE]
    · simp [List.length_take]
      omega
    · exact List.take_append_drop blen buffer

/-- Witness for claim C5 at concrete inputs: a two-byte native response in
a four-byte buffer comes back as the exact two-byte prefix. -/
theorem success_returns_buffer_prefix_witness :
    Card.get_attribute [0x90, 0x00, 7, 7] 0 2 = Except.ok [0x90, 0x00] ∧
    (Card.transmit { handle := 3, active_protocol := Protocol.T1 }
      [0x90, 0x00, 7, 7] 0 2).2 = Except.ok [0x90, 0x00] := by
  have h := success_returns_buffer_prefix [0x90, 0x00, 7, 7] [0x90, 0x00, 7, 7]
    { handle := 3, active_protocol := Protocol.T1 } 2 2 2
  have h1 := (h.1 (by decide)).1
  have h2 := (h.2.1 (by decide)).1
  rw [h1, h2]
  constructor <;> rfl

/-- Claim C6: an absent timeout is passed to the native wait as the
infinite sentinel; an explicit duration is converted to whole milliseconds
with saturating u64 arithmetic and capped at the sentinel, so the value
passed never exceeds the sentinel and equals the duration's millisecond
count whenever that count is below the sentinel. -/
theorem get_status_change_timeout (secs nanos : Nat) :
    Context.get_status_change_timeout_ms none = INFINITE ∧
    Context.get_status_change_timeout_ms (some (secs, nanos)) ≤ INFINITE ∧
    (secs * 1000 + nanos / 1000000 < INFINITE →
      Context.get_status_change_timeout_ms (some (secs, nanos)) =
        secs * 1000 + nanos / 1000000) := by
  refine ⟨rfl, ?_, ?_⟩
  · simp [Context.get_status_change_timeout_ms]
  · intro h
    have hI : INFINITE = 4294967295 := rfl
    have hM : U64_MAX = 18446744073709551615 := rfl
    simp only [Context.get_status_change_timeout_ms, saturatingAddU64,
      saturatingMulU64]
    rw [hI] at h ⊢
    rw [hM]
    omega

/-- Witness for claim C6 at a concrete input: 2 seconds and 500 million
nanoseconds become 2500 milliseconds. -/
theorem get_status_change_timeout_witness :
    Context.get_status_change_timeout_ms (some (2, 500000000)) = 2500 := by
  have h := (get_status_change_timeout 2 500000000).2.2 (by decide)
  rw [h]

/-- Claim C7: `Protocol::from_raw` returns the matching variant on each of
the three protocol codes and panics (modelled as `none`) on every other
word; in `Context::connect` this panic is the sole panic condition (a
normal return happens exactly when the native code is non-success or the
reported protocol word is one of the three), and it is unreachable under
the precondition that the native layer reports one of the protocols this
layer offers. -/
theorem protocol_from_raw_spec (raw : Nat) (m : ShareMode) (ret : Int)
    (handle : Nat) :
    (Protocol.from_raw SCARD_PROTOCOL_T0 = some Protocol.T0 ∧
     Protocol.from_raw SCARD_PROTOCOL_T1 = some Protocol.T1 ∧
     Protocol.from_raw SCARD_PROTOCOL_RAW = some Protocol.RAW) ∧
    (raw ≠ SCARD_PROTOCOL_T0 → raw ≠ SCARD_PROTOCOL_T1 →
      raw ≠ SCARD_PROTOCOL_RAW → Protocol.from_raw raw = none) ∧
    (Context.connect m ret handle raw = none ↔
      ret = SCARD_S_SUCCESS ∧ Protocol.from_raw raw = none) ∧
    ((raw = SCARD_PROTOCOL_T0 ∨ raw = SCARD_PROTOCOL_T1 ∨
        raw = SCARD_PROTOCOL_RAW) →
      Context.connect m ret handle raw ≠ none) := by
  refine ⟨⟨rfl, rfl, rfl⟩, ?_, ?_, ?_⟩
  · intro h1 h2 h3
    simp [Protocol.from_raw, h1, h2, h3]
  · constructor
    · intro h
      unfold Context.connect at h
      by_cases hr : ret = SCARD_S_SUCCESS
      · refine ⟨hr, ?_⟩
        simp [hr] at h
        cases hp : Protocol.from_raw raw with
        | none => rfl
        | some p => rw [hp] at h; simp at h
      · simp [hr] at h
    · intro ⟨h1, h2⟩
      simp [Context.connect, h1, h2]
  · intro h hc
    unfold Context.connect at hc
    by_cases hr : ret = SCARD_S_SUCCESS
    · simp [hr] at hc
      rcases h with h | h | h <;> rw [h] at hc <;>
        simp [Protocol.from_raw, SCARD_PROTOCOL_T0, SCARD_PROTOCOL_T1,
          SCARD_PROTOCOL_RAW] at hc
    · simp [hr] at hc

/-- Witness for claim C7 at concrete inputs: the word 3 (a mask, not a
single protocol) panics, the word 2 (T1) does not. -/
theorem protocol_from_raw_spec_witness :
    Protocol.from_raw 3 = none ∧
    Context.connect ShareMode.Shared 0 9 2 ≠ none := by
  have h1 := (protocol_from_raw_spec 3 ShareMode.Shared 0 9).2.1
    (by decide) (by decide) (by decide)
  have h2 := (protocol_from_raw_spec 2 ShareMode.Shared 0 9).2.2.2
    (Or.inr (Or.inl (by decide)))
  exact ⟨h1, h2⟩

/-- The event counter lives in bits 16 to 31 of the event-state word:
masking with 0xFFFF0000 and shifting right by 16 extracts them. -/
theorem testBit_counter_mask (i : Nat) :
    Nat.testBit 0xFFFF0000 (16 + i) = Nat.testBit 0xFFFF i := by
  rcases Nat.lt_or_ge i 16 with h | h
  · interval_cases i <;> decide
  · have h1 : Nat.testBit 0xFFFF i = false := by
      apply Nat.testBit_lt_two_pow
      calc (0xFFFF : Nat) < 2 ^ 16 := by norm_num
      _ ≤ 2 ^ i := Nat.pow_le_pow_right (by norm_num) h
    have h2 : Nat.testBit 0xFFFF0000 (16 + i) = false := by
      apply Nat.testBit_lt_two_pow
      calc (0xFFFF0000 : Nat) < 2 ^ 32 := by norm_num
      _ ≤ 2 ^ (16 + i) := Nat.pow_le_pow_right (by norm_num) (by omega)
    rw [h1, h2]

/-- The counter extraction commutes with the shift. -/
theorem counter_mask_shift (w : Nat) :
    (w &&& 0xFFFF0000) >>> 16 = (w >>> 16) &&& 0xFFFF := by
  apply Nat.eq_of_testBit_eq
  intro i
  simp [Nat.testBit_shiftRight, Nat.testBit_and, testBit_counter_mask]

/-- On a 32-bit event-state word the extracted counter is the word's top 16
bits. -/
theorem counter_eq_top_bits (w : Nat) (h : w < 2 ^ 32) :
    (w &&& 0xFFFF0000) >>> 16 = w / 2 ^ 16 := by
  rw [counter_mask_shift]
  have h1 : (0xFFFF : Nat) = 2 ^ 16 - 1 := by norm_num
  rw [h1, Nat.and_pow_two_sub_one_eq_mod, Nat.shiftRight_eq_div_pow]
  have h2 : w / 2 ^ 16 < 2 ^ 16 := by
    apply Nat.div_lt_of_lt_mul
    calc w < 2 ^ 32 := h
    _ = 2 ^ 16 * 2 ^ 16 := by norm_num
  exact Nat.mod_eq_of_lt h2

/-- Claim C8: `sync_current_state` copies the entire raw event-state word,
top-16-bit event counter included, into the current-state word; after a
sync followed by a native "no change" report, `event_state()` and
`event_count()` are unchanged; and `event_count()` equals the top 16 bits
of the (32-bit) raw event-state word. -/
theorem sync_current_state_spec (rs : ReaderState) :
    rs.sync_current_state.dwCurrentState = rs.dwEventState ∧
    ((rs.sync_current_state.applyNativeReport
        rs.sync_current_state.noChangeReport).event_state = rs.event_state ∧
     (rs.sync_current_state.applyNativeReport
        rs.sync_current_state.noChangeReport).event_count = rs.event_count) ∧
    (rs.dwEventState < 2 ^ 32 →
      rs.event_count = rs.dwEventState / 2 ^ 16) := by
  refine ⟨rfl, ⟨rfl, rfl⟩, ?_⟩
  intro h
  exact counter_eq_top_bits rs.dwEventState h

/-- Witness for claim C8 at a concrete record: event word 0x00030020 (two
insertions observed, card present) keeps its state and count across a sync
plus no-change report, and its counter is 3. -/
theorem sync_current_state_spec_witness :
    ({ szReader := [82], dwCurrentState := 0, dwEventState := 0x00030020,
       cbAtr := 0, rgbAtr := [] } : ReaderState).event_count =
      0x00030020 / 2 ^ 16 ∧
    (0x00030020 : Nat) / 2 ^ 16 = 3 := by
  have h := (sync_current_state_spec
    { szReader := [82], dwCurrentState := 0, dwEventState := 0x00030020,
      cbAtr := 0, rgbAtr := [] }).2.2 (by norm_num)
  exact ⟨h, by norm_num⟩

/-- Claim C9: a freshly constructed `ReaderState` has a zero
(`STATE_UNAWARE`) event-state word, hence an empty `event_state()` mask and
an `event_count()` of 0; its ATR length is 0; and `name()` returns the
given name. -/
theorem reader_state_new_spec (name : List Nat) (current_state : Nat) :
    (ReaderState.new name current_state).dwEventState = STATE_UNAWARE ∧
    (ReaderState.new name current_state).event_state = 0 ∧
    (ReaderState.new name current_state).event_count = 0 ∧
    (ReaderState.new name current_state).cbAtr = 0 ∧
    (ReaderState.new name current_state).name = name ∧
    (ReaderState.new name current_state).dwCurrentState = current_state := by
  refine ⟨rfl, ?_, ?_, rfl, rfl, rfl⟩
  · simp [ReaderState.new, ReaderState.event_state, State.from_bits_truncate,
      STATE_UNAWARE]
  · simp [ReaderState.new, ReaderState.event_count, STATE_UNAWARE]
